import Mathlib

/-!
Verification development for the weather MCP server repository.

The repository contains near-duplicate rewrites of one HTTP fetcher
(`make_request`) and four tool handlers
(`get_weather_by_city`, `get_precipitation_chance`, `get_air_quality`,
`get_alerts_by_type`) across `server.py`, `weather.py`, `weather/app.py`
and `weather/weather.py`.

We shallowly embed those handlers.  Upstream HTTP responses are passed in
as explicit `Option Json` arguments (`none` models the Failure marker the
fetcher returns on any transport error, non-2xx status or malformed
body).  Python runtime faults (KeyError, IndexError, TypeError,
AttributeError) are modelled with `Except PyErr`; a normal return value is
`Except.ok`.  JSON numbers are modelled as integers, which suffices for
the string-shape properties verified here.

Variant naming: `_srv` embeds `server.py`, `_app` embeds
`weather/app.py` (identical handler bodies also appear in the root
`weather.py`), `_w` embeds `weather/weather.py`.
-/

/-- A JSON value, as produced by parsing an upstream HTTP response body. -/
inductive Json where
  | null : Json
  | bool : Bool → Json
  | num : Int → Json
  | str : String → Json
  | arr : List Json → Json
  | obj : List (String × Json) → Json

/-- Python exception kinds that the embedded handler code can raise. -/
inductive PyErr where
  | keyError : String → PyErr
  | indexError : PyErr
  | typeError : PyErr
  | attributeError : PyErr
deriving DecidableEq, Repr

/-- Python `s.lower()` on a string (ASCII case mapping, structurally
recursive so that concrete instances evaluate). -/
def pyLowerStr (s : String) : String := String.mk (s.data.map Char.toLower)

namespace Json

/-- Python truthiness of a JSON value (`if not data` tests the negation):
`None`, `False`, `0`, `""`, `[]` and `{}` are falsy, everything else truthy. -/
def isTruthy : Json → Bool
  | .null => false
  | .bool b => b
  | .num n => n != 0
  | .str s => s != ""
  | .arr xs => !xs.isEmpty
  | .obj kvs => !kvs.isEmpty

/-- First binding of a key in an association list (Python dict lookup). -/
def lookupKv (kvs : List (String × Json)) (k : String) : Option Json :=
  match kvs with
  | [] => none
  | (k', v) :: rest => if k' = k then some v else lookupKv rest k

/-- Python `k in data` membership test.  On a dict it is key membership, on
a list it is element membership, on a string it is substring membership;
on `None`, booleans and numbers it raises TypeError. -/
def hasKey (j : Json) (k : String) : Except PyErr Bool :=
  match j with
  | .obj kvs => .ok ((lookupKv kvs k).isSome)
  | .arr xs => .ok (xs.any fun x => match x with | .str s => decide (s = k) | _ => false)
  | .str s => .ok (decide (k.data <:+: s.data))
  | _ => .error .typeError

/-- Python `data[k]` subscription with a string key: dict lookup raising
KeyError when absent; TypeError on any non-dict. -/
def getItem (j : Json) (k : String) : Except PyErr Json :=
  match j with
  | .obj kvs =>
    match lookupKv kvs k with
    | some v => .ok v
    | none => .error (.keyError k)
  | _ => .error .typeError

/-- Python `data[i]` subscription with a non-negative integer index:
list indexing raising IndexError when out of range; a dict raises
KeyError (no integer key is ever present in these payloads); anything
else raises TypeError. -/
def pyIndexNat (j : Json) (i : Nat) : Except PyErr Json :=
  match j with
  | .arr xs =>
    match xs[i]? with
    | some v => .ok v
    | none => .error .indexError
  | .obj _ => .error (.keyError "")
  | .str s =>
    match s.data[i]? with
    | some c => .ok (.str (String.mk [c]))
    | none => .error .indexError
  | _ => .error .typeError

/-- Python `d.get(k, default)`: only dicts have `.get`; every other value
raises AttributeError. -/
def attrGet (j : Json) (k : String) (dflt : Json) : Except PyErr Json :=
  match j with
  | .obj kvs => .ok ((lookupKv kvs k).getD dflt)
  | _ => .error .attributeError

/-- Python iteration `for x in j`: a list yields its elements, a string its
characters, a dict its keys; other values raise TypeError. -/
def pyIter (j : Json) : Except PyErr (List Json) :=
  match j with
  | .arr xs => .ok xs
  | .str s => .ok (s.data.map fun c => .str (String.mk [c]))
  | .obj kvs => .ok (kvs.map fun kv => .str kv.1)
  | _ => .error .typeError

mutual

/-- Python `repr` of a parsed-JSON value (ASCII-faithful approximation:
string escapes inside nested containers are not reproduced). -/
def pyRepr : Json → String
  | .null => "None"
  | .bool true => "True"
  | .bool false => "False"
  | .num n => toString n
  | .str s => "'" ++ s ++ "'"
  | .arr xs => "[" ++ String.intercalate ", " (pyReprList xs) ++ "]"
  | .obj kvs => "\x7b" ++ String.intercalate ", " (pyReprKvs kvs) ++ "\x7d"

/-- Element representations of a JSON array, in order. -/
def pyReprList : List Json → List String
  | [] => []
  | x :: xs => pyRepr x :: pyReprList xs

/-- Binding representations of a JSON object, in order. -/
def pyReprKvs : List (String × Json) → List String
  | [] => []
  | (k, v) :: kvs => ("'" ++ k ++ "': " ++ pyRepr v) :: pyReprKvs kvs

end

/-- Python `str` of a parsed-JSON value, as interpolated by an f-string. -/
def render (j : Json) : String :=
  match j with
  | .str s => s
  | j => pyRepr j

/-- Python `s.lower()` on a value: only strings have `.lower`; every other
value raises AttributeError.  (ASCII case mapping.) -/
def pyLower (j : Json) : Except PyErr String :=
  match j with
  | .str s => .ok (pyLowerStr s)
  | _ => .error .attributeError

/-- Python slice `v[:n]`: strings and lists truncate, other values raise
TypeError. -/
def pySliceTo (j : Json) (n : Nat) : Except PyErr Json :=
  match j with
  | .str s => .ok (.str (String.mk (s.data.take n)))
  | .arr xs => .ok (.arr (xs.take n))
  | _ => .error .typeError

end Json

/-- Python `needle in hay` on strings: substring containment. -/
def pyStrIn (needle hay : String) : Bool :=
  decide (needle.data <:+: hay.data)

/-- Python `s.upper()` (ASCII case mapping, which covers the state codes
the alerts endpoint accepts). -/
def pyUpper (s : String) : String := String.mk (s.data.map Char.toUpper)

/-- Python `s.title()` (ASCII): the first character of every run of
letters is upper-cased, the following letters lower-cased. -/
def pyTitleGo : List Char → Bool → List Char
  | [], _ => []
  | c :: cs, prevAlpha =>
    (if prevAlpha then c.toLower else c.toUpper) :: pyTitleGo cs c.isAlpha

/-- Python `s.title()` on a whole string. -/
def pyTitle (s : String) : String := String.mk (pyTitleGo s.data false)

/-! ## The HTTP fetcher (`make_request`)

Every variant wraps one `httpx` GET in `try/except Exception`: on success
it returns the parsed JSON body, on any failure (transport error, a
non-2xx status raised by `raise_for_status`, or a body that fails JSON
parsing) it prints one diagnostic line and returns `None`.  We model the
network outcome explicitly and return the result together with the list
of (channel, text) diagnostics printed. -/

/-- Output channel of a `print` call. -/
inductive Channel where
  | stdout : Channel
  | stderr : Channel
deriving DecidableEq, Repr

/-- Outcome of the underlying HTTP GET attempt.  `httpError` covers a
completed request whose non-2xx status makes `raise_for_status` raise;
the carried string is the rendered exception message `e`. -/
inductive FetchOutcome where
  | success : Json → FetchOutcome
  | transportError : String → FetchOutcome
  | httpError : String → FetchOutcome
  | invalidJson : String → FetchOutcome

/-- `make_request` of `server.py`, `weather/app.py` and the root
`weather.py`: the diagnostic goes to `sys.stderr` explicitly
(`print(f"[ERROR] {url} -> {e}", file=sys.stderr)`). -/
def make_request_srv (url : String) (o : FetchOutcome) :
    Option Json × List (Channel × String) :=
  match o with
  | .success body => (some body, [])
  | .transportError e => (none, [(.stderr, "[ERROR] " ++ url ++ " -> " ++ e)])
  | .httpError e => (none, [(.stderr, "[ERROR] " ++ url ++ " -> " ++ e)])
  | .invalidJson e => (none, [(.stderr, "[ERROR] " ++ url ++ " -> " ++ e)])

/-- `make_request` of `weather/weather.py`: the diagnostic is printed with
a bare `print(f"[ERROR] {url} -> {e}")`, i.e. to `sys.stdout`. -/
def make_request_w (url : String) (o : FetchOutcome) :
    Option Json × List (Channel × String) :=
  match o with
  | .success body => (some body, [])
  | .transportError e => (none, [(.stdout, "[ERROR] " ++ url ++ " -> " ++ e)])
  | .httpError e => (none, [(.stdout, "[ERROR] " ++ url ++ " -> " ++ e)])
  | .invalidJson e => (none, [(.stdout, "[ERROR] " ++ url ++ " -> " ++ e)])

/-! ## `get_weather_by_city`

The upstream responses of the two sequential fetches (geocoding, then
forecast) are passed as `Option Json` arguments. -/

/-- `get_weather_by_city` of `server.py` (same body in `weather/app.py`
and root `weather.py`; the success template writes `{...} C`). -/
def get_weather_by_city_srv (city : String)
    (geoData weatherData : Option Json) : Except PyErr String := do
  match geoData with
  | none => pure ("Unable to find location for '" ++ city ++ "'.")
  | some g =>
    if !g.isTruthy then pure ("Unable to find location for '" ++ city ++ "'.")
    else do
      let hasR ← g.hasKey "results"
      if !hasR then pure ("Unable to find location for '" ++ city ++ "'.")
      else do
        let results ← g.getItem "results"
        if !results.isTruthy then
          pure ("Unable to find location for '" ++ city ++ "'.")
        else do
          let first ← results.pyIndexNat 0
          let _lat ← first.getItem "latitude"
          let _lon ← first.getItem "longitude"
          match weatherData with
          | none => pure ("Unable to fetch current weather for " ++ city ++ ".")
          | some w =>
            if !w.isTruthy then
              pure ("Unable to fetch current weather for " ++ city ++ ".")
            else do
              let hasC ← w.hasKey "current"
              if !hasC then
                pure ("Unable to fetch current weather for " ++ city ++ ".")
              else do
                let current ← w.getItem "current"
                let t ← current.attrGet "temperature_2m" (Json.str "N/A")
                let ws ← current.attrGet "wind_speed_10m" (Json.str "N/A")
                let p ← current.attrGet "precipitation" (Json.str "N/A")
                pure ("\nCurrent Weather in " ++ pyTitle city ++
                  ":\nTemperature: " ++ t.render ++ " C\nWind Speed: " ++
                  ws.render ++ " m/s\nPrecipitation: " ++ p.render ++ " mm\n")

/-- `get_weather_by_city` of `weather/weather.py` (identical guards; the
success template writes `{...}°C` with no space). -/
def get_weather_by_city_w (city : String)
    (geoData weatherData : Option Json) : Except PyErr String := do
  match geoData with
  | none => pure ("Unable to find location for '" ++ city ++ "'.")
  | some g =>
    if !g.isTruthy then pure ("Unable to find location for '" ++ city ++ "'.")
    else do
      let hasR ← g.hasKey "results"
      if !hasR then pure ("Unable to find location for '" ++ city ++ "'.")
      else do
        let results ← g.getItem "results"
        if !results.isTruthy then
          pure ("Unable to find location for '" ++ city ++ "'.")
        else do
          let first ← results.pyIndexNat 0
          let _lat ← first.getItem "latitude"
          let _lon ← first.getItem "longitude"
          match weatherData with
          | none => pure ("Unable to fetch current weather for " ++ city ++ ".")
          | some w =>
            if !w.isTruthy then
              pure ("Unable to fetch current weather for " ++ city ++ ".")
            else do
              let hasC ← w.hasKey "current"
              if !hasC then
                pure ("Unable to fetch current weather for " ++ city ++ ".")
              else do
                let current ← w.getItem "current"
                let t ← current.attrGet "temperature_2m" (Json.str "N/A")
                let ws ← current.attrGet "wind_speed_10m" (Json.str "N/A")
                let p ← current.attrGet "precipitation" (Json.str "N/A")
                pure ("\nCurrent Weather in " ++ pyTitle city ++
                  ":\nTemperature: " ++ t.render ++ "°C\nWind Speed: " ++
                  ws.render ++ " m/s\nPrecipitation: " ++ p.render ++ " mm\n")

/-! ## `get_precipitation_chance` -/

/-- Loop body of `get_precipitation_chance` in `server.py` /
`weather/app.py`: `for i, day in enumerate(daily.get("time", [])):
prob = daily.get("precipitation_probability_max", [])[i]`.  The
probability list is re-read from `daily` on every iteration, and indexed
by the position in the `time` iteration. -/
def precipLoop_srv (daily : Json) : List Json → Nat → Except PyErr (List String)
  | [], _ => pure []
  | day :: rest, i => do
    let probsJ ← daily.attrGet "precipitation_probability_max" (Json.arr [])
    let prob ← probsJ.pyIndexNat i
    let tail ← precipLoop_srv daily rest (i + 1)
    pure ((day.render ++ ": " ++ prob.render ++ "% chance of precipitation") :: tail)

/-- `get_precipitation_chance` of `server.py` / `weather/app.py` / root
`weather.py`: `forecast_days: 7`, header line `Precipitation Forecast:`,
fallback `Unable to fetch precipitation forecast.`. -/
def get_precipitation_chance_srv (data : Option Json) : Except PyErr String := do
  match data with
  | none => pure "Unable to fetch precipitation forecast."
  | some d =>
    if !d.isTruthy then pure "Unable to fetch precipitation forecast."
    else do
      let hasD ← d.hasKey "daily"
      if !hasD then pure "Unable to fetch precipitation forecast."
      else do
        let daily ← d.getItem "daily"
        let timesJ ← daily.attrGet "time" (Json.arr [])
        let times ← timesJ.pyIter
        let lines ← precipLoop_srv daily times 0
        pure (String.intercalate "\n" ("Precipitation Forecast:" :: lines))

/-- Loop body of `get_precipitation_chance` in `weather/weather.py`:
`for i, date in enumerate(days["time"]): chance =
days["precipitation_probability_max"][i]` (plain subscription, no
defaults). -/
def precipLoop_w (days : Json) : List Json → Nat → Except PyErr (List String)
  | [], _ => pure []
  | date :: rest, i => do
    let probsJ ← days.getItem "precipitation_probability_max"
    let chance ← probsJ.pyIndexNat i
    let tail ← precipLoop_w days rest (i + 1)
    pure ((date.render ++ ": " ++ chance.render ++ "% chance of precipitation") :: tail)

/-- `get_precipitation_chance` of `weather/weather.py`: `forecast_days: 3`,
no header line, fallback `Unable to fetch precipitation data.`. -/
def get_precipitation_chance_w (data : Option Json) : Except PyErr String := do
  match data with
  | none => pure "Unable to fetch precipitation data."
  | some d =>
    if !d.isTruthy then pure "Unable to fetch precipitation data."
    else do
      let hasD ← d.hasKey "daily"
      if !hasD then pure "Unable to fetch precipitation data."
      else do
        let days ← d.getItem "daily"
        let timesJ ← days.getItem "time"
        let times ← timesJ.pyIter
        let lines ← precipLoop_w days times 0
        pure (String.intercalate "\n" lines)

/-! ## `get_air_quality`

The two embedded variants differ only in the micro glyph of the unit:
`server.py` / `weather/app.py` / root `weather.py` write GREEK SMALL
LETTER MU (U+03BC), `weather/weather.py` writes MICRO SIGN (U+00B5). -/

/-- `get_air_quality` of `server.py` / `weather/app.py` / root
`weather.py` (unit glyph U+03BC). -/
def get_air_quality_srv (data : Option Json) : Except PyErr String := do
  match data with
  | none => pure "Unable to fetch air quality data."
  | some d =>
    if !d.isTruthy then pure "Unable to fetch air quality data."
    else do
      let hasC ← d.hasKey "current"
      if !hasC then pure "Unable to fetch air quality data."
      else do
        let aq ← d.getItem "current"
        let pm25 ← aq.attrGet "pm2_5" (Json.str "N/A")
        let pm10 ← aq.attrGet "pm10" (Json.str "N/A")
        let co ← aq.attrGet "carbon_monoxide" (Json.str "N/A")
        let no2 ← aq.attrGet "nitrogen_dioxide" (Json.str "N/A")
        let o3 ← aq.attrGet "ozone" (Json.str "N/A")
        pure ("\nAir Quality Data:\nPM2.5: " ++ pm25.render ++
          " μg/m³\nPM10: " ++ pm10.render ++
          " μg/m³\nCO: " ++ co.render ++
          " μg/m³\nNO₂: " ++ no2.render ++
          " μg/m³\nO₃: " ++ o3.render ++ " μg/m³\n")

/-- `get_air_quality` of `weather/weather.py` (unit glyph U+00B5, the
micro sign, matching the spec's `µg/m³`). -/
def get_air_quality_w (data : Option Json) : Except PyErr String := do
  match data with
  | none => pure "Unable to fetch air quality data."
  | some d =>
    if !d.isTruthy then pure "Unable to fetch air quality data."
    else do
      let hasC ← d.hasKey "current"
      if !hasC then pure "Unable to fetch air quality data."
      else do
        let aq ← d.getItem "current"
        let pm25 ← aq.attrGet "pm2_5" (Json.str "N/A")
        let pm10 ← aq.attrGet "pm10" (Json.str "N/A")
        let co ← aq.attrGet "carbon_monoxide" (Json.str "N/A")
        let no2 ← aq.attrGet "nitrogen_dioxide" (Json.str "N/A")
        let o3 ← aq.attrGet "ozone" (Json.str "N/A")
        pure ("\nAir Quality Data:\nPM2.5: " ++ pm25.render ++
          " µg/m³\nPM10: " ++ pm10.render ++
          " µg/m³\nCO: " ++ co.render ++
          " µg/m³\nNO₂: " ++ no2.render ++
          " µg/m³\nO₃: " ++ o3.render ++ " µg/m³\n")

/-! ## `get_alerts_by_type`

The alerts handler builds its request URL from `state`, so these
embeddings take the fetch as a function from URL to response: the
response that influences the result is exactly the one at the URL the
handler constructs. -/

/-- Shared constant `NWS_API_BASE`. -/
def NWS_API_BASE : String := "https://api.weather.gov"

/-- Request URL built by `get_alerts_by_type` in `weather/app.py` and the
root `weather.py`: `f"{NWS_API_BASE}/alerts/active/area/{state}"` — the
state is interpolated verbatim. -/
def alertsUrl_app (state : String) : String :=
  NWS_API_BASE ++ "/alerts/active/area/" ++ state

/-- Request URL built by `get_alerts_by_type` in `weather/weather.py`:
`f"{NWS_API_BASE}/alerts/active/area/{state.upper()}"`. -/
def alertsUrl_w (state : String) : String :=
  NWS_API_BASE ++ "/alerts/active/area/" ++ pyUpper state

/-- One iteration of the `for feature in features` loop of
`weather/app.py`: `props = feature["properties"]`, `event =
props.get("event", "")`, keep when `event_type_lower in event.lower()`,
formatting the block with the description truncated to 300 characters
and a trailing `...`. -/
def processFeature_app (etLower : String) (f : Json) :
    Except PyErr (Option String) := do
  let props ← f.getItem "properties"
  let eventJ ← props.attrGet "event" (Json.str "")
  let evLower ← eventJ.pyLower
  if pyStrIn etLower evLower then
    let area ← props.attrGet "areaDesc" (Json.str "Unknown")
    let sev ← props.attrGet "severity" (Json.str "Unknown")
    let descJ ← props.attrGet "description" (Json.str "No description available")
    let desc ← descJ.pySliceTo 300
    pure (some ("\nEvent: " ++ eventJ.render ++ "\nArea: " ++ area.render ++
      "\nSeverity: " ++ sev.render ++ "\nDescription: " ++ desc.render ++
      "...\n"))
  else
    pure none

/-- The whole filtering loop of `weather/app.py`, accumulating the
formatted blocks in upstream order. -/
def alertsLoop_app (etLower : String) : List Json → Except PyErr (List String)
  | [] => pure []
  | f :: fs => do
    let r ← processFeature_app etLower f
    let rest ← alertsLoop_app etLower fs
    match r with
    | some s => pure (s :: rest)
    | none => pure rest

/-- `get_alerts_by_type` of `weather/app.py` and root `weather.py`. -/
def get_alerts_by_type_app (state eventType : String)
    (fetch : String → Option Json) : Except PyErr String := do
  match fetch (alertsUrl_app state) with
  | none => pure ("Unable to fetch alerts for " ++ state ++ ".")
  | some d =>
    if !d.isTruthy then pure ("Unable to fetch alerts for " ++ state ++ ".")
    else do
      let hasF ← d.hasKey "features"
      if !hasF then pure ("Unable to fetch alerts for " ++ state ++ ".")
      else do
        let featuresJ ← d.getItem "features"
        let features ← featuresJ.pyIter
        let filtered ← alertsLoop_app (pyLowerStr eventType) features
        if filtered.isEmpty then
          pure ("No active " ++ eventType ++ " alerts for " ++ state ++ ".")
        else
          pure (String.intercalate "\n---\n" filtered)

/-- One element of the list comprehension of `weather/weather.py`:
condition `event_type.lower() in f["properties"].get("event",
"").lower()`, block with Event/Area/Severity/Description/Instructions,
no truncation. -/
def processFeature_w (etLower : String) (f : Json) :
    Except PyErr (Option String) := do
  let props ← f.getItem "properties"
  let eventJ ← props.attrGet "event" (Json.str "")
  let evLower ← eventJ.pyLower
  if pyStrIn etLower evLower then
    let ev ← props.attrGet "event" (Json.str "Unknown")
    let area ← props.attrGet "areaDesc" (Json.str "Unknown")
    let sev ← props.attrGet "severity" (Json.str "Unknown")
    let desc ← props.attrGet "description" (Json.str "No description available")
    let instr ← props.attrGet "instruction" (Json.str "No specific instructions provided")
    pure (some ("\nEvent: " ++ ev.render ++ "\nArea: " ++ area.render ++
      "\nSeverity: " ++ sev.render ++ "\nDescription: " ++ desc.render ++
      "\nInstructions: " ++ instr.render ++ "\n"))
  else
    pure none

/-- The whole list comprehension of `weather/weather.py`, in upstream
order. -/
def alertsLoop_w (etLower : String) : List Json → Except PyErr (List String)
  | [] => pure []
  | f :: fs => do
    let r ← processFeature_w etLower f
    let rest ← alertsLoop_w etLower fs
    match r with
    | some s => pure (s :: rest)
    | none => pure rest

/-- `get_alerts_by_type` of `weather/weather.py`: the URL upper-cases the
state, and the no-match message also writes `state.upper()`. -/
def get_alerts_by_type_w (state eventType : String)
    (fetch : String → Option Json) : Except PyErr String := do
  match fetch (alertsUrl_w state) with
  | none => pure ("Unable to fetch alerts for " ++ state ++ ".")
  | some d =>
    if !d.isTruthy then pure ("Unable to fetch alerts for " ++ state ++ ".")
    else do
      let hasF ← d.hasKey "features"
      if !hasF then pure ("Unable to fetch alerts for " ++ state ++ ".")
      else do
        let featuresJ ← d.getItem "features"
        let features ← featuresJ.pyIter
        let filtered ← alertsLoop_w (pyLowerStr eventType) features
        if filtered.isEmpty then
          pure ("No active " ++ eventType ++ " alerts for " ++ pyUpper state ++ ".")
        else
          pure (String.intercalate "\n---\n" filtered)

/-! ## Spec-side formulations

Pure (total) restatements of what the spec asserts about the handler
outputs, to be compared with the embedded code above. -/

/-- One forecast line, `"{date}: {value}% chance of precipitation"`. -/
def precipLine (date value : Json) : String :=
  date.render ++ ": " ++ value.render ++ "% chance of precipitation"

/-- Rendering of one air-quality field as the spec states it: the field's
value when present, the literal `N/A` when absent. -/
def aqField (ckvs : List (String × Json)) (k : String) : String :=
  match Json.lookupKv ckvs k with
  | some v => v.render
  | none => "N/A"

/-- Well-formedness of one alert feature as the spec's AlertRecord data
model describes it: an object with a `properties` object whose `event`
and `description` fields, when present, are strings. -/
def featureWF (f : Json) : Bool :=
  match f with
  | .obj kvs =>
    match Json.lookupKv kvs "properties" with
    | some (.obj pkvs) =>
      (match Json.lookupKv pkvs "event" with
       | some (.str _) => true
       | none => true
       | _ => false) &&
      (match Json.lookupKv pkvs "description" with
       | some (.str _) => true
       | none => true
       | _ => false)
    | _ => false
  | _ => false

/-- The bindings of a feature's `properties` object (empty for shapes
ruled out by `featureWF`). -/
def propsKvs (f : Json) : List (String × Json) :=
  match f with
  | .obj kvs =>
    match Json.lookupKv kvs "properties" with
    | some (.obj pkvs) => pkvs
    | _ => []
  | _ => []

/-- The feature's `properties.event` string, defaulting to `""` exactly as
the filter condition does. -/
def eventOf (f : Json) : String :=
  match Json.lookupKv (propsKvs f) "event" with
  | some (.str s) => s
  | _ => ""

/-- The case-insensitive substring filter of `get_alerts_by_type`: keep a
feature when `event_type.lower()` occurs in `properties.event.lower()`. -/
def matchesEt (etLower : String) (f : Json) : Bool :=
  pyStrIn etLower (pyLowerStr (eventOf f))

/-- A `properties` field rendered with a string default, as
`props.get(k, dflt)` interpolated into the block f-string. -/
def pgetr (f : Json) (k : String) (dflt : String) : String :=
  ((Json.lookupKv (propsKvs f) k).getD (Json.str dflt)).render

/-- The description as `weather/app.py` prints it: sliced to 300
characters (the default string is shorter than 300, so it passes through
the slice unchanged). -/
def alertDesc_app (f : Json) : String :=
  match Json.lookupKv (propsKvs f) "description" with
  | some (.str s) => String.mk (s.data.take 300)
  | some v => v.render
  | none => "No description available"

/-- The alert block `weather/app.py` formats for one matching feature. -/
def alertBlock_app (f : Json) : String :=
  "\nEvent: " ++ pgetr f "event" "" ++
  "\nArea: " ++ pgetr f "areaDesc" "Unknown" ++
  "\nSeverity: " ++ pgetr f "severity" "Unknown" ++
  "\nDescription: " ++ alertDesc_app f ++ "...\n"

/-- The alert block `weather/weather.py` formats for one matching
feature. -/
def alertBlock_w (f : Json) : String :=
  "\nEvent: " ++ pgetr f "event" "Unknown" ++
  "\nArea: " ++ pgetr f "areaDesc" "Unknown" ++
  "\nSeverity: " ++ pgetr f "severity" "Unknown" ++
  "\nDescription: " ++ pgetr f "description" "No description available" ++
  "\nInstructions: " ++ pgetr f "instruction" "No specific instructions provided" ++ "\n"

/-- An alert feature literal of the shape the NWS endpoint returns, used
to instantiate the alert theorems on concrete inputs. -/
def sampleFeature (ev area sev desc : String) : Json :=
  Json.obj [("properties", Json.obj
    [("event", Json.str ev), ("areaDesc", Json.str area),
     ("severity", Json.str sev), ("description", Json.str desc)])]

/-- An upstream alert list with three features, two of which match the
substring "storm" case-insensitively. -/
def sampleFeatures : List Json :=
  [sampleFeature "Severe Storm Warning" "North Bay" "Severe" "High winds expected.",
   sampleFeature "Flood Watch" "River Valley" "Moderate" "Rising water levels.",
   sampleFeature "Storm Surge Watch" "Coastline" "Severe" "Coastal flooding possible."]

/-! ## Reduction helpers -/

/-- Bind on a successful `Except` computation reduces to the continuation. -/
theorem exceptBind_ok {ε α β : Type} (a : α) (f : α → Except ε β) :
    (Except.ok a : Except ε α) >>= f = f a := rfl

/-- Pure in the `Except` monad is `Except.ok`. -/
theorem exceptPure_eq_ok {ε α : Type} (a : α) :
    (pure a : Except ε α) = Except.ok a := rfl

/-- Rendering `props.get(k, "N/A")` agrees with the spec-side `aqField`. -/
theorem aqField_eq (ckvs : List (String × Json)) (k : String) :
    ((Json.lookupKv ckvs k).getD (Json.str "N/A")).render = aqField ckvs k := by
  cases h : Json.lookupKv ckvs k <;> simp [aqField, h, Json.render]

/-- The `server.py` forecast loop, started at offset `i`, produces exactly
the zip of the remaining dates with the probability list from offset `i`,
provided the probability list is long enough. -/
theorem precipLoop_srv_eq (dkvs : List (String × Json)) (ps : List Json)
    (hps : Json.lookupKv dkvs "precipitation_probability_max" = some (Json.arr ps)) :
    ∀ (ts : List Json) (i : Nat), ts.length + i ≤ ps.length →
      precipLoop_srv (Json.obj dkvs) ts i =
        .ok (List.zipWith precipLine ts (ps.drop i))
  | [], i, _ => rfl
  | t :: ts, i, h => by
    have hi : i < ps.length := by
      simp only [List.length_cons] at h; omega
    have ih := precipLoop_srv_eq dkvs ps hps ts (i + 1) (by
      simp only [List.length_cons] at h; omega)
    rw [precipLoop_srv]
    simp only [Json.attrGet, hps, Option.getD, Json.pyIndexNat,
      List.getElem?_eq_getElem hi, exceptBind_ok, exceptPure_eq_ok, ih,
      List.drop_eq_getElem_cons hi, List.zipWith_cons_cons, precipLine]

/-- The `weather/weather.py` forecast loop satisfies the same zip
characterisation. -/
theorem precipLoop_w_eq (dkvs : List (String × Json)) (ps : List Json)
    (hps : Json.lookupKv dkvs "precipitation_probability_max" = some (Json.arr ps)) :
    ∀ (ts : List Json) (i : Nat), ts.length + i ≤ ps.length →
      precipLoop_w (Json.obj dkvs) ts i =
        .ok (List.zipWith precipLine ts (ps.drop i))
  | [], i, _ => rfl
  | t :: ts, i, h => by
    have hi : i < ps.length := by
      simp only [List.length_cons] at h; omega
    have ih := precipLoop_w_eq dkvs ps hps ts (i + 1) (by
      simp only [List.length_cons] at h; omega)
    rw [precipLoop_w]
    simp only [Json.getItem, hps, Json.pyIndexNat,
      List.getElem?_eq_getElem hi, exceptBind_ok, exceptPure_eq_ok, ih,
      List.drop_eq_getElem_cons hi, List.zipWith_cons_cons, precipLine]

/-- On a well-formed feature, the `weather/app.py` loop body keeps the
feature iff the case-insensitive substring filter matches, and then
formats exactly `alertBlock_app`. -/
theorem processFeature_app_eq (etLower : String) (f : Json) (h : featureWF f = true) :
    processFeature_app etLower f =
      .ok (if matchesEt etLower f then some (alertBlock_app f) else none) := by
  cases f with
  | obj kvs =>
    simp only [featureWF] at h
    cases hp : Json.lookupKv kvs "properties" with
    | none => rw [hp] at h; simp at h
    | some props =>
      cases props with
      | obj pkvs =>
        rw [hp] at h
        simp only [Bool.and_eq_true] at h
        obtain ⟨hev, hdesc⟩ := h
        simp only [processFeature_app, Json.getItem, hp, Json.attrGet, Json.pyLower,
          matchesEt, eventOf, propsKvs, alertBlock_app, pgetr, alertDesc_app]
        cases he : Json.lookupKv pkvs "event" with
        | none =>
          cases hd : Json.lookupKv pkvs "description" with
          | none =>
            cases hc : pyStrIn etLower (pyLowerStr "") <;>
              simp [he, hd, hc, exceptBind_ok, exceptPure_eq_ok, Json.pySliceTo, Json.render]
          | some dv =>
            rw [hd] at hdesc
            cases dv with
            | str s =>
              cases hc : pyStrIn etLower (pyLowerStr "") <;>
                simp [he, hd, hc, exceptBind_ok, exceptPure_eq_ok, Json.pySliceTo, Json.render]
            | _ => simp_all
        | some ev =>
          rw [he] at hev
          cases ev with
          | str s =>
            cases hc : pyStrIn etLower (pyLowerStr s) with
            | false =>
              simp [he, hc, exceptBind_ok, exceptPure_eq_ok]
            | true =>
              cases hd : Json.lookupKv pkvs "description" with
              | none =>
                simp [he, hd, hc, exceptBind_ok, exceptPure_eq_ok,
                  Json.pySliceTo, Json.render]
              | some dv =>
                rw [hd] at hdesc
                cases dv with
                | str s2 =>
                  simp [he, hd, hc, exceptBind_ok, exceptPure_eq_ok,
                    Json.pySliceTo, Json.render]
                | _ => simp_all
          | _ => simp_all
      | _ => rw [hp] at h; simp at h
  | _ => simp [featureWF] at h

/-- On a well-formed feature, the `weather/weather.py` comprehension
element keeps the feature iff the same filter matches, formatting
`alertBlock_w`. -/
theorem processFeature_w_eq (etLower : String) (f : Json) (h : featureWF f = true) :
    processFeature_w etLower f =
      .ok (if matchesEt etLower f then some (alertBlock_w f) else none) := by
  cases f with
  | obj kvs =>
    simp only [featureWF] at h
    cases hp : Json.lookupKv kvs "properties" with
    | none => rw [hp] at h; simp at h
    | some props =>
      cases props with
      | obj pkvs =>
        rw [hp] at h
        simp only [Bool.and_eq_true] at h
        obtain ⟨hev, hdesc⟩ := h
        simp only [processFeature_w, Json.getItem, hp, Json.attrGet, Json.pyLower,
          matchesEt, eventOf, propsKvs, alertBlock_w, pgetr]
        cases he : Json.lookupKv pkvs "event" with
        | none =>
          cases hc : pyStrIn etLower (pyLowerStr "") <;>
            simp [he, hc, exceptBind_ok, exceptPure_eq_ok, Json.render]
        | some ev =>
          rw [he] at hev
          cases ev with
          | str s =>
            cases hc : pyStrIn etLower (pyLowerStr s) <;>
              simp [he, hc, exceptBind_ok, exceptPure_eq_ok, Json.render]
          | _ => simp_all
      | _ => rw [hp] at h; simp at h
  | _ => simp [featureWF] at h

/-- The whole `weather/app.py` filter loop equals filter-then-map, keeping
upstream order. -/
theorem alertsLoop_app_eq (etLower : String) (fs : List Json)
    (h : ∀ f ∈ fs, featureWF f = true) :
    alertsLoop_app etLower fs =
      .ok ((fs.filter (matchesEt etLower)).map alertBlock_app) := by
  induction fs with
  | nil => rfl
  | cons f fs ih =>
    have hf := h f (List.mem_cons_self f fs)
    have hrest : ∀ g ∈ fs, featureWF g = true :=
      fun g hg => h g (List.mem_cons_of_mem f hg)
    rw [alertsLoop_app, processFeature_app_eq etLower f hf, ih hrest]
    cases hm : matchesEt etLower f <;>
      simp [hm, exceptBind_ok, exceptPure_eq_ok, List.filter_cons]

/-- The whole `weather/weather.py` comprehension equals filter-then-map,
keeping upstream order. -/
theorem alertsLoop_w_eq (etLower : String) (fs : List Json)
    (h : ∀ f ∈ fs, featureWF f = true) :
    alertsLoop_w etLower fs =
      .ok ((fs.filter (matchesEt etLower)).map alertBlock_w) := by
  induction fs with
  | nil => rfl
  | cons f fs ih =>
    have hf := h f (List.mem_cons_self f fs)
    have hrest : ∀ g ∈ fs, featureWF g = true :=
      fun g hg => h g (List.mem_cons_of_mem f hg)
    rw [alertsLoop_w, processFeature_w_eq etLower f hf, ih hrest]
    cases hm : matchesEt etLower f <;>
      simp [hm, exceptBind_ok, exceptPure_eq_ok, List.filter_cons]

/-! ## Claim theorems -/

/-- C1: the claim states that with `daily.time` strictly longer than
`daily.precipitation_probability_max`, `get_precipitation_chance` stops at
the shorter bound and still returns a string.  Evaluating the embedded
code at two such inputs shows it instead faults with IndexError (the
subscription `daily.get("precipitation_probability_max", [])[i]` is
unguarded), so no string crosses the tool boundary. -/
theorem precipitation_shorter_probability_array_faults :
    get_precipitation_chance_srv (some (Json.obj [("daily", Json.obj
      [("time", Json.arr [Json.str "2024-01-01"]),
       ("precipitation_probability_max", Json.arr [])])])) =
      .error .indexError ∧
    get_precipitation_chance_srv (some (Json.obj [("daily", Json.obj
      [("time", Json.arr [Json.str "2024-01-01", Json.str "2024-01-02"]),
       ("precipitation_probability_max", Json.arr [Json.num 40])])])) =
      .error .indexError := ⟨rfl, rfl⟩

/-- C2: on a fetch Failure (`none`, covering transport failure, non-2xx
status and malformed JSON) every handler returns its fallback string, but
the claim's quantification over JSON values of arbitrary shape fails: a
well-formed `daily` object with mismatched array lengths makes
`get_precipitation_chance` raise IndexError across the tool-call
boundary. -/
theorem handlers_fallback_on_failure_but_fault_on_shape :
    (∀ city w, get_weather_by_city_srv city none w =
        .ok ("Unable to find location for '" ++ city ++ "'.")) ∧
    get_precipitation_chance_srv none =
      .ok "Unable to fetch precipitation forecast." ∧
    get_air_quality_srv none = .ok "Unable to fetch air quality data." ∧
    (∀ state et, get_alerts_by_type_app state et (fun _ => none) =
        .ok ("Unable to fetch alerts for " ++ state ++ ".")) ∧
    get_precipitation_chance_srv (some (Json.obj [("daily", Json.obj
      [("time", Json.arr [Json.str "2024-01-03"]),
       ("precipitation_probability_max", Json.arr [])])])) =
      .error .indexError :=
  ⟨fun _ _ => rfl, rfl, rfl, fun _ _ => rfl, rfl⟩

/-- C8: on every failure outcome `make_request` returns the Failure
marker `None` instead of raising — but in the `weather/weather.py`
variant the diagnostic is printed by a bare `print(...)`, i.e. to stdout,
which is the stdio protocol transport there (its `main` runs
`mcp.run(transport='stdio')`); only the other variants print to stderr. -/
theorem make_request_w_diag_to_stdout :
    (∀ url e, (make_request_w url (.transportError e)).1 = none ∧
      (make_request_w url (.httpError e)).1 = none ∧
      (make_request_w url (.invalidJson e)).1 = none ∧
      (make_request_srv url (.transportError e)).1 = none ∧
      (make_request_srv url (.httpError e)).1 = none ∧
      (make_request_srv url (.invalidJson e)).1 = none) ∧
    make_request_w "https://api.weather.gov/alerts/active/area/CA"
        (.transportError "timeout") =
      (none, [(Channel.stdout,
        "[ERROR] https://api.weather.gov/alerts/active/area/CA -> timeout")]) ∧
    make_request_srv "https://api.open-meteo.com/v1/forecast"
        (.transportError "timeout") =
      (none, [(Channel.stderr,
        "[ERROR] https://api.open-meteo.com/v1/forecast -> timeout")]) :=
  ⟨fun _ _ => ⟨rfl, rfl, rfl, rfl, rfl, rfl⟩, rfl, rfl⟩

/-- C9: a fetch that succeeds with the falsy JSON value `\x7b\x7d` takes the
same `if not data` guard branch as a transport Failure, so each handler
returns the very same fallback string for both, and the host cannot tell
an empty well-formed body from a failed request. -/
theorem empty_object_response_treated_as_failure :
    (∀ city w, get_weather_by_city_srv city (some (Json.obj [])) w =
        get_weather_by_city_srv city none w ∧
      get_weather_by_city_srv city none w =
        .ok ("Unable to find location for '" ++ city ++ "'.")) ∧
    (get_air_quality_srv (some (Json.obj [])) = get_air_quality_srv none ∧
      get_air_quality_srv none = .ok "Unable to fetch air quality data.") ∧
    (get_precipitation_chance_w (some (Json.obj [])) =
        get_precipitation_chance_w none ∧
      get_precipitation_chance_w none =
        .ok "Unable to fetch precipitation data.") :=
  ⟨fun _ _ => ⟨rfl, rfl⟩, ⟨rfl, rfl⟩, ⟨rfl, rfl⟩⟩

/-- C3 counterexample: at a response whose `daily.time` has exactly one
entry, the `server.py` handler emits two lines — the claim's "exactly one
line per entry, each of the `\x7bdate\x7d: \x7bvalue\x7d%` form" is false because the
output opens with the header line `Precipitation Forecast:`: it contains
a newline (so it is two lines, not one) and differs from the single
`precipLine` the claim prescribes. -/
theorem precipitation_header_breaks_one_line_per_entry :
    get_precipitation_chance_srv (some (Json.obj [("daily", Json.obj
      [("time", Json.arr [Json.str "2024-02-01"]),
       ("precipitation_probability_max", Json.arr [Json.num 55])])])) =
      .ok "Precipitation Forecast:\n2024-02-01: 55% chance of precipitation" ∧
    ("Precipitation Forecast:\n2024-02-01: 55% chance of precipitation".data.count
        '\n') = 1 ∧
    "Precipitation Forecast:\n2024-02-01: 55% chance of precipitation" ≠
      precipLine (Json.str "2024-02-01") (Json.num 55) :=
  ⟨rfl, by decide, by decide⟩

/-- C3 (amended): whenever the `daily` object carries a `time` array and a
probability array at least as long, the handler emits exactly one
`\x7bdate\x7d: \x7bvalue\x7d% chance of precipitation` line per `time` entry, zipped by
index in upstream order; the `server.py`/`weather/app.py` variant
prefixes the header line `Precipitation Forecast:` while the
`weather/weather.py` variant emits exactly the data lines. -/
theorem precipitation_one_line_per_time_entry
    (ts ps : List Json) (rest : List (String × Json))
    (hlen : ts.length ≤ ps.length) :
    get_precipitation_chance_srv (some (Json.obj (("daily",
        Json.obj [("time", Json.arr ts),
          ("precipitation_probability_max", Json.arr ps)]) :: rest))) =
      .ok (String.intercalate "\n"
        ("Precipitation Forecast:" :: List.zipWith precipLine ts ps)) ∧
    get_precipitation_chance_w (some (Json.obj (("daily",
        Json.obj [("time", Json.arr ts),
          ("precipitation_probability_max", Json.arr ps)]) :: rest))) =
      .ok (String.intercalate "\n" (List.zipWith precipLine ts ps)) := by
  have hps : Json.lookupKv [("time", Json.arr ts),
      ("precipitation_probability_max", Json.arr ps)]
      "precipitation_probability_max" = some (Json.arr ps) := by
    simp [Json.lookupKv]
  have ht : Json.lookupKv [("time", Json.arr ts),
      ("precipitation_probability_max", Json.arr ps)] "time" =
      some (Json.arr ts) := by simp [Json.lookupKv]
  constructor
  · have hloop := precipLoop_srv_eq _ ps hps ts 0 (by omega)
    simp only [get_precipitation_chance_srv, Json.isTruthy, Json.hasKey,
      Json.lookupKv, Json.getItem, Json.attrGet, Json.pyIter, List.isEmpty,
      exceptBind_ok, exceptPure_eq_ok]
    simp [ht, hloop, exceptBind_ok, exceptPure_eq_ok]
  · have hloop := precipLoop_w_eq _ ps hps ts 0 (by omega)
    simp only [get_precipitation_chance_w, Json.isTruthy, Json.hasKey,
      Json.lookupKv, Json.getItem, Json.pyIter, List.isEmpty,
      exceptBind_ok, exceptPure_eq_ok]
    simp [ht, hloop, exceptBind_ok, exceptPure_eq_ok]

/-- C3 witness: the amended theorem applied at a concrete two-day
forecast. -/
theorem precipitation_one_line_per_time_entry_witness :
    ([Json.str "2024-02-01", Json.str "2024-02-02"] : List Json).length ≤
      ([Json.num 55, Json.num 10] : List Json).length ∧
    (get_precipitation_chance_srv (some (Json.obj [("daily",
        Json.obj [("time", Json.arr [Json.str "2024-02-01", Json.str "2024-02-02"]),
          ("precipitation_probability_max",
            Json.arr [Json.num 55, Json.num 10])])])) =
      .ok (String.intercalate "\n"
        ("Precipitation Forecast:" :: List.zipWith precipLine
          [Json.str "2024-02-01", Json.str "2024-02-02"]
          [Json.num 55, Json.num 10])) ∧
    get_precipitation_chance_w (some (Json.obj [("daily",
        Json.obj [("time", Json.arr [Json.str "2024-02-01", Json.str "2024-02-02"]),
          ("precipitation_probability_max",
            Json.arr [Json.num 55, Json.num 10])])])) =
      .ok (String.intercalate "\n" (List.zipWith precipLine
        [Json.str "2024-02-01", Json.str "2024-02-02"]
        [Json.num 55, Json.num 10]))) :=
  ⟨by decide, precipitation_one_line_per_time_entry
    [Json.str "2024-02-01", Json.str "2024-02-02"]
    [Json.num 55, Json.num 10] [] (by decide)⟩

/-- C4: for every response holding a `current` object, `get_air_quality`
of `weather/weather.py` returns the template with exactly the five metric
lines in fixed order PM2.5, PM10, CO, NO₂, O₃, each with unit `µg/m³`,
and every absent field rendered as `N/A` — the call never fails.  (The
`server.py` family is byte-identical except that its unit glyph is the
Greek small mu U+03BC rather than the micro sign.) -/
theorem air_quality_five_fixed_lines (ckvs rest : List (String × Json)) :
    get_air_quality_w (some (Json.obj (("current", Json.obj ckvs) :: rest))) =
      .ok ("\nAir Quality Data:\nPM2.5: " ++ aqField ckvs "pm2_5" ++
        " µg/m³\nPM10: " ++ aqField ckvs "pm10" ++
        " µg/m³\nCO: " ++ aqField ckvs "carbon_monoxide" ++
        " µg/m³\nNO₂: " ++ aqField ckvs "nitrogen_dioxide" ++
        " µg/m³\nO₃: " ++ aqField ckvs "ozone" ++ " µg/m³\n") := by
  simp only [get_air_quality_w, Json.isTruthy, Json.hasKey, Json.lookupKv,
    Json.getItem, Json.attrGet, List.isEmpty, exceptBind_ok, exceptPure_eq_ok]
  simp [aqField_eq, exceptBind_ok, exceptPure_eq_ok]

/-- C6 counterexample: in `weather/app.py` (and root `weather.py`) the
state is interpolated into the URL verbatim, so for the lower-case input
`ca` the fetched URL is not the upper-cased one the claim requires. -/
theorem alerts_url_app_not_uppercased :
    alertsUrl_app "ca" = "https://api.weather.gov/alerts/active/area/ca" ∧
    alertsUrl_app "ca" ≠ "https://api.weather.gov/alerts/active/area/CA" := by
  exact ⟨rfl, by decide⟩

/-- C6 (amended): only the `weather/weather.py` variant upper-cases the
state before building the URL — there the fetched URL is
`\x7balerts-base\x7d/active/area/\x7bSTATE\x7d` and depends on the input only through
its upper-casing — while `weather/app.py` and root `weather.py`
interpolate the state as given. -/
theorem alerts_url_uppercased_only_in_w :
    (∀ s, alertsUrl_w s =
      NWS_API_BASE ++ "/alerts/active/area/" ++ pyUpper s) ∧
    (∀ s₁ s₂, pyUpper s₁ = pyUpper s₂ → alertsUrl_w s₁ = alertsUrl_w s₂) ∧
    (∀ s, alertsUrl_app s = NWS_API_BASE ++ "/alerts/active/area/" ++ s) ∧
    alertsUrl_w "ca" = "https://api.weather.gov/alerts/active/area/CA" := by
  refine ⟨fun s => rfl, fun s₁ s₂ h => ?_, fun s => rfl, by decide⟩
  simp [alertsUrl_w, h]

/-- C6 witness: two spellings of the same state fetch the same URL in the
`weather/weather.py` variant. -/
theorem alerts_url_uppercased_only_in_w_witness :
    pyUpper "ca" = pyUpper "Ca" ∧ alertsUrl_w "ca" = alertsUrl_w "Ca" :=
  ⟨by decide, alerts_url_uppercased_only_in_w.2.1 "ca" "Ca" (by decide)⟩

/-- C5: for a features list of well-formed alert records, the handler
keeps exactly the features whose `properties.event` contains the event
type as a case-insensitive substring and, when any match, returns one
formatted block per kept feature joined by a `\n---\n` separator in the
upstream relative order — in both the `weather/app.py` and the
`weather/weather.py` variant. -/
theorem alerts_substring_filter_blocks (state et : String) (fs : List Json)
    (rest : List (String × Json))
    (hwf : ∀ f ∈ fs, featureWF f = true)
    (hne : (fs.filter (matchesEt (pyLowerStr et))).isEmpty = false) :
    get_alerts_by_type_app state et
        (fun _ => some (Json.obj (("features", Json.arr fs) :: rest))) =
      .ok (String.intercalate "\n---\n"
        ((fs.filter (matchesEt (pyLowerStr et))).map alertBlock_app)) ∧
    get_alerts_by_type_w state et
        (fun _ => some (Json.obj (("features", Json.arr fs) :: rest))) =
      .ok (String.intercalate "\n---\n"
        ((fs.filter (matchesEt (pyLowerStr et))).map alertBlock_w)) := by
  constructor
  · have hloop := alertsLoop_app_eq (pyLowerStr et) fs hwf
    simp only [get_alerts_by_type_app, Json.isTruthy, Json.hasKey, Json.lookupKv,
      Json.getItem, Json.pyIter, List.isEmpty, exceptBind_ok, exceptPure_eq_ok]
    simp [hloop, exceptBind_ok, exceptPure_eq_ok]
    intro hcontra
    exfalso
    cases hflt : List.filter (matchesEt (pyLowerStr et)) fs with
    | nil => rw [hflt] at hne; simp at hne
    | cons a l => rw [hflt] at hcontra; simp at hcontra
  · have hloop := alertsLoop_w_eq (pyLowerStr et) fs hwf
    simp only [get_alerts_by_type_w, Json.isTruthy, Json.hasKey, Json.lookupKv,
      Json.getItem, Json.pyIter, List.isEmpty, exceptBind_ok, exceptPure_eq_ok]
    simp [hloop, exceptBind_ok, exceptPure_eq_ok]
    intro hcontra
    exfalso
    cases hflt : List.filter (matchesEt (pyLowerStr et)) fs with
    | nil => rw [hflt] at hne; simp at hne
    | cons a l => rw [hflt] at hcontra; simp at hcontra

/-- C5 witness: three upstream features of which exactly two match
"storm"; the theorem applied there yields the two blocks. -/
theorem alerts_substring_filter_blocks_witness :
    (∀ f ∈ sampleFeatures, featureWF f = true) ∧
    (sampleFeatures.filter (matchesEt (pyLowerStr "storm"))).isEmpty = false ∧
    (sampleFeatures.filter (matchesEt (pyLowerStr "storm"))).length = 2 ∧
    (get_alerts_by_type_app "CA" "storm"
        (fun _ => some (Json.obj [("features", Json.arr sampleFeatures)])) =
      .ok (String.intercalate "\n---\n"
        ((sampleFeatures.filter (matchesEt (pyLowerStr "storm"))).map
          alertBlock_app)) ∧
    get_alerts_by_type_w "CA" "storm"
        (fun _ => some (Json.obj [("features", Json.arr sampleFeatures)])) =
      .ok (String.intercalate "\n---\n"
        ((sampleFeatures.filter (matchesEt (pyLowerStr "storm"))).map
          alertBlock_w))) :=
  ⟨by decide, by decide, by decide,
    alerts_substring_filter_blocks "CA" "storm" sampleFeatures []
      (by decide) (by decide)⟩

/-- C7: whenever the geocoding fetch fails (`none`), or its response is
falsy, or it is an object lacking a `results` key, or its `results` value
is falsy (in particular the empty list), both embedded variants of
`get_weather_by_city` return exactly
`Unable to find location for 'city'.` with the city interpolated
verbatim. -/
theorem geocode_failure_returns_unable_to_find (city : String) (w : Option Json) :
    (get_weather_by_city_srv city none w =
        .ok ("Unable to find location for '" ++ city ++ "'.") ∧
      get_weather_by_city_w city none w =
        .ok ("Unable to find location for '" ++ city ++ "'.")) ∧
    (∀ g : Json, g.isTruthy = false →
      get_weather_by_city_srv city (some g) w =
          .ok ("Unable to find location for '" ++ city ++ "'.") ∧
        get_weather_by_city_w city (some g) w =
          .ok ("Unable to find location for '" ++ city ++ "'.")) ∧
    (∀ kvs : List (String × Json),
      (Json.lookupKv kvs "results").isSome = false → kvs.isEmpty = false →
      get_weather_by_city_srv city (some (Json.obj kvs)) w =
          .ok ("Unable to find location for '" ++ city ++ "'.") ∧
        get_weather_by_city_w city (some (Json.obj kvs)) w =
          .ok ("Unable to find location for '" ++ city ++ "'.")) ∧
    (∀ (r : Json) (rest : List (String × Json)), r.isTruthy = false →
      get_weather_by_city_srv city (some (Json.obj (("results", r) :: rest))) w =
          .ok ("Unable to find location for '" ++ city ++ "'.") ∧
        get_weather_by_city_w city (some (Json.obj (("results", r) :: rest))) w =
          .ok ("Unable to find location for '" ++ city ++ "'.")) := by
  refine ⟨⟨rfl, rfl⟩, fun g hg => ?_, fun kvs h1 h2 => ?_, fun r rest hr => ?_⟩
  · constructor <;>
      simp [get_weather_by_city_srv, get_weather_by_city_w, hg,
        exceptBind_ok, exceptPure_eq_ok]
  · constructor <;>
      simp [get_weather_by_city_srv, get_weather_by_city_w, Json.isTruthy,
        Json.hasKey, h1, h2, exceptBind_ok, exceptPure_eq_ok]
  · have hobj : (Json.obj (("results", r) :: rest)).isTruthy = true := by
      simp [Json.isTruthy]
    have hlook : Json.lookupKv (("results", r) :: rest) "results" = some r := by
      simp [Json.lookupKv]
    constructor <;>
      simp [get_weather_by_city_srv, get_weather_by_city_w, Json.hasKey,
        Json.getItem, hobj, hlook, hr, exceptBind_ok, exceptPure_eq_ok]

/-- C7 witness: the empty `results` list for the city the spec names. -/
theorem geocode_failure_returns_unable_to_find_witness :
    (Json.arr []).isTruthy = false ∧
    get_weather_by_city_srv "Unknown Place Zzzzz"
        (some (Json.obj [("results", Json.arr [])])) none =
      .ok ("Unable to find location for '" ++ "Unknown Place Zzzzz" ++ "'.") :=
  ⟨rfl, ((geocode_failure_returns_unable_to_find "Unknown Place Zzzzz" none).2.2.2
    (Json.arr []) [] rfl).1⟩

/-- C10: the empty event type lower-cases to the empty string, which is a
substring of every event, so the filter keeps every feature: on any
non-empty well-formed features list the `weather/app.py` handler returns
one block per feature (and hence takes the joined-blocks branch, never
the `No active` message). -/
theorem empty_event_type_matches_all (state : String) (fs : List Json)
    (rest : List (String × Json)) (hwf : ∀ f ∈ fs, featureWF f = true)
    (hne : fs.isEmpty = false) :
    fs.filter (matchesEt (pyLowerStr "")) = fs ∧
    get_alerts_by_type_app state ""
        (fun _ => some (Json.obj (("features", Json.arr fs) :: rest))) =
      .ok (String.intercalate "\n---\n" (fs.map alertBlock_app)) := by
  have hall : ∀ f ∈ fs, matchesEt (pyLowerStr "") f = true := by
    intro f _
    simp only [matchesEt, pyStrIn, decide_eq_true_eq]
    have h0 : (pyLowerStr "").data = [] := rfl
    exact ⟨[], (pyLowerStr (eventOf f)).data, by simp [h0]⟩
  have hfilter : fs.filter (matchesEt (pyLowerStr "")) = fs :=
    List.filter_eq_self.mpr hall
  refine ⟨hfilter, ?_⟩
  have hloop := alertsLoop_app_eq (pyLowerStr "") fs hwf
  rw [hfilter] at hloop
  simp only [get_alerts_by_type_app, Json.isTruthy, Json.hasKey, Json.lookupKv,
    Json.getItem, Json.pyIter, List.isEmpty, exceptBind_ok, exceptPure_eq_ok]
  simp [hloop, exceptBind_ok, exceptPure_eq_ok]
  intro hcontra
  exfalso
  cases hflt : fs with
  | nil => rw [hflt] at hne; simp at hne
  | cons a l => rw [hflt] at hcontra; simp at hcontra

/-- C10 witness: with the empty event type all three sample features are
kept and formatted. -/
theorem empty_event_type_matches_all_witness :
    (∀ f ∈ sampleFeatures, featureWF f = true) ∧
    sampleFeatures.isEmpty = false ∧
    (sampleFeatures.filter (matchesEt (pyLowerStr "")) = sampleFeatures ∧
    get_alerts_by_type_app "TX" ""
        (fun _ => some (Json.obj [("features", Json.arr sampleFeatures)])) =
      .ok (String.intercalate "\n---\n" (sampleFeatures.map alertBlock_app))) :=
  ⟨by decide, by decide,
    empty_event_type_matches_all "TX" sampleFeatures [] (by decide) (by decide)⟩
